import Mathlib

/-!
Shallow embedding of the SKALA-FutureSight workflow core
(`app/workflow_graph.py`, `app/tools/converter.py`, `app/tools/search.py`).

Modelling conventions:
* Python exceptions are `Except String α`: `.error msg` is a raised exception
  carrying `str(e)`, `.ok` is normal return.
* The progress callback (`Callable[[str], None]`) is modelled as a function
  from the message to `Option String`: `none` means the call returns
  normally, `some e` means the call raises an exception with message `e`.
* External collaborators (the LLM agents, the Brave client, the pdf/docx
  renderers, `time.strftime`) are oracles collected in environment records;
  each oracle receives exactly the arguments the Python call site passes.
* The filesystem write performed by `ReportConverter._save_markdown` is
  modelled by returning the pair (path, bytes written); reading the produced
  file back is reading the `content` component.
* The LangGraph graph built in `TrendAnalysisGraphWorkflow.__init__` is
  executed with invoke-style sequential semantics: after each stage node the
  conditional edge registered for that node (router `should_handle_error`)
  picks the successor, `handle_error` and `end_workflow` lead to END.
-/

namespace FutureSight

/-- A progress callback: given the message, `none` = returns normally,
`some e` = raises an exception with message `e`. -/
def Cb : Type := String → Option String

/-- `state.get("callback")` followed by `state["callback"](msg)`:
no callback present is a no-op, a present callback may raise. -/
def invokeCallback (cb : Option Cb) (msg : String) : Except String Unit :=
  match cb with
  | none => Except.ok ()
  | some c =>
    match c msg with
    | none => Except.ok ()
    | some e => Except.error e

/-- Python truthiness of an `Optional[str]` value: `None` and `""` are falsy. -/
def truthyOpt : Option String → Bool
  | none => false
  | some s => s ≠ ""

/-- `f"{x}"` for an `Optional[str]`: `None` prints as `"None"`. -/
def pyStrOpt : Option String → String
  | none => "None"
  | some s => s

/-- The analysis plan payload (`Dict[str, Any]` in the source); its inner
structure is irrelevant to the workflow core, which only stores it. -/
abbrev Plan : Type := String

/-- `TrendAnalysisState` (TypedDict in `app/workflow_graph.py`). -/
structure TrendAnalysisState where
  fields : List String
  format : String
  language : String
  depth : String
  rag_enabled : Bool
  rag_docs : List String
  analysis_plan : Option Plan
  research_results : Option String
  report : Option String
  output_path : Option String
  status : String
  error : Option String
  callback : Option Cb

/-- A file produced by the converter: its path and the bytes written to it. -/
structure FileOut where
  path : String
  content : String
deriving DecidableEq

/-- Reading the produced file back from disk. -/
def readBack (fo : FileOut) : String := fo.content

/-- Oracles for the external rendering libraries used by
`ReportConverter._convert_to_pdf` / `_convert_to_docx` (reportlab / python-docx,
including the font registration that may fail): markdown content and filename
to either an exception or the written file. -/
structure ConvEnv where
  toPdf : String → String → Except String FileOut
  toDocx : String → String → Except String FileOut

/-- `ReportConverter._save_markdown`: writes `content` verbatim to
`output/{filename}.md` and returns the path. -/
def saveMarkdown (content filename : String) : FileOut :=
  { path := "output/" ++ filename ++ ".md", content := content }

/-- `ReportConverter.convert` (`app/tools/converter.py`): dispatches on the
`format` string; anything outside `md` / `pdf` / `docx` raises
`ValueError(f"지원되지 않는 형식: {format}")`. -/
def ReportConverter.convert (cenv : ConvEnv) (markdown_content format filename : String) :
    Except String FileOut :=
  if format = "md" then Except.ok (saveMarkdown markdown_content filename)
  else if format = "pdf" then cenv.toPdf markdown_content filename
  else if format = "docx" then cenv.toDocx markdown_content filename
  else Except.error ("지원되지 않는 형식: " ++ format)

/-- Oracles for the stage collaborators of `app/workflow_graph.py`, applied to
exactly the arguments the Python call sites pass:
* `coordinatorPlan fields format language depth rag_enabled rag_docs` is
  `CoordinatorAgent().set_task_parameters(...)` + `create_analysis_plan()`;
* `researcherRun fields depth rag_enabled rag_docs` is
  `ResearchAgent().set_task_parameters(...)` + `run()`;
* `reporterRun fields language depth research_data` is
  `ReportAgent().set_task_parameters(...)` + `run()`;
* `conv` holds the pdf/docx renderers behind `ReportConverter`;
* `timestamp` is `time.strftime("%Y%m%d_%H%M%S")`. -/
structure Env where
  coordinatorPlan : List String → String → String → String → Bool → List String →
    Except String Plan
  researcherRun : List String → String → Bool → List String → Except String String
  reporterRun : List String → String → String → Option String → Except String String
  conv : ConvEnv
  timestamp : String

/-- Stage node `create_analysis_plan`: the progress callback is invoked
OUTSIDE the `try` block; only the collaborator call is guarded. -/
def create_analysis_plan (env : Env) (s : TrendAnalysisState) :
    Except String TrendAnalysisState :=
  match invokeCallback s.callback "분석 계획 생성 중..." with
  | Except.error e => Except.error e
  | Except.ok _ =>
    match env.coordinatorPlan s.fields s.format s.language s.depth s.rag_enabled s.rag_docs with
    | Except.ok plan =>
      Except.ok { s with analysis_plan := some plan, status := "analysis_plan_created",
                         error := none }
    | Except.error e =>
      Except.ok { s with error := some ("분석 계획 생성 중 오류 발생: " ++ e),
                         status := "error" }

/-- Stage node `perform_research`. -/
def perform_research (env : Env) (s : TrendAnalysisState) :
    Except String TrendAnalysisState :=
  match invokeCallback s.callback "리서치 수행 중..." with
  | Except.error e => Except.error e
  | Except.ok _ =>
    match env.researcherRun s.fields s.depth s.rag_enabled s.rag_docs with
    | Except.ok research_results =>
      Except.ok { s with research_results := some research_results,
                         status := "research_completed", error := none }
    | Except.error e =>
      Except.ok { s with error := some ("리서치 수행 중 오류 발생: " ++ e),
                         status := "error" }

/-- Stage node `generate_report`. -/
def generate_report (env : Env) (s : TrendAnalysisState) :
    Except String TrendAnalysisState :=
  match invokeCallback s.callback "보고서 생성 중..." with
  | Except.error e => Except.error e
  | Except.ok _ =>
    match env.reporterRun s.fields s.language s.depth s.research_results with
    | Except.ok report =>
      Except.ok { s with report := some report, status := "report_generated",
                         error := none }
    | Except.error e =>
      Except.ok { s with error := some ("보고서 생성 중 오류 발생: " ++ e),
                         status := "error" }

/-- Stage node `convert_report`. The entry callback is outside the `try`;
inside the `try`, `state["output_path"]` is mutated before a second callback
invocation, so an exception from that second callback is caught by the same
`except` clause after `output_path` has already been written. If
`state["report"]` is `None`, the conversion call raises inside the `try`
(writing/rendering `None` raises a `TypeError` in the Python libraries). -/
def convert_report (env : Env) (s : TrendAnalysisState) :
    Except String TrendAnalysisState :=
  match invokeCallback s.callback ("보고서 " ++ s.format ++ " 형식으로 변환 중...") with
  | Except.error e => Except.error e
  | Except.ok _ =>
    match (match s.report with
           | none => Except.error "expected str, got NoneType"
           | some r =>
             ReportConverter.convert env.conv r s.format
               ("tech_trend_report_" ++ env.timestamp)) with
    | Except.error e =>
      Except.ok { s with error := some ("보고서 변환 중 오류 발생: " ++ e),
                         status := "error" }
    | Except.ok fo =>
      match invokeCallback s.callback ("워크플로우 완료: " ++ fo.path) with
      | Except.ok _ =>
        Except.ok { s with output_path := some fo.path, status := "completed",
                           error := none }
      | Except.error e =>
        Except.ok { s with output_path := some fo.path, status := "error",
                           error := some ("보고서 변환 중 오류 발생: " ++ e) }

/-- Node `handle_error`: reports the error through the callback (unguarded)
and returns the state unchanged. -/
def handle_error (s : TrendAnalysisState) : Except String TrendAnalysisState :=
  match invokeCallback s.callback ("오류 발생: " ++ pyStrOpt s.error) with
  | Except.error e => Except.error e
  | Except.ok _ => Except.ok s

/-- Node `end_workflow`. -/
def end_workflow (s : TrendAnalysisState) : Except String TrendAnalysisState :=
  match invokeCallback s.callback "워크플로우 종료" with
  | Except.error e => Except.error e
  | Except.ok _ => Except.ok s

/-- The conditional router `should_handle_error`:
`if state.get("error"): return "error"` / `return "continue"`. -/
def should_handle_error (s : TrendAnalysisState) : String :=
  if truthyOpt s.error then "error" else "continue"

/-- `self.graph.invoke(input_state)` over the graph wired in
`TrendAnalysisGraphWorkflow.__init__`: entry point `create_plan`, then the
conditional edges registered per node route either to the next stage or to
`handle_error`, and `handle_error` / `end_workflow` lead to END. The final
state of the terminal node is returned. -/
def graphInvoke (env : Env) (s0 : TrendAnalysisState) :
    Except String TrendAnalysisState :=
  match create_analysis_plan env s0 with
  | Except.error e => Except.error e
  | Except.ok s1 =>
    if should_handle_error s1 = "error" then handle_error s1
    else
      match perform_research env s1 with
      | Except.error e => Except.error e
      | Except.ok s2 =>
        if should_handle_error s2 = "error" then handle_error s2
        else
          match generate_report env s2 with
          | Except.error e => Except.error e
          | Except.ok s3 =>
            if should_handle_error s3 = "error" then handle_error s3
            else
              match convert_report env s3 with
              | Except.error e => Except.error e
              | Except.ok s4 =>
                if should_handle_error s4 = "error" then handle_error s4
                else end_workflow s4

/-- The engine object: only the mutable `self.state` matters to the claims
(the compiled graph and the `MemorySaver` are fixed at construction). -/
structure TrendAnalysisGraphWorkflow where
  state : Option TrendAnalysisState

/-- The `initial_state` dict built by `TrendAnalysisGraphWorkflow.setup`
(artifacts unset, status `"initialized"`, no error, `rag_docs or []`). -/
def initialState (fields : List String) (format language depth : String)
    (rag_enabled : Bool) (rag_docs : Option (List String)) (callback : Option Cb) :
    TrendAnalysisState :=
  { fields := fields
    format := format
    language := language
    depth := depth
    rag_enabled := rag_enabled
    rag_docs := rag_docs.getD []
    analysis_plan := none
    research_results := none
    report := none
    output_path := none
    status := "initialized"
    error := none
    callback := callback }

/-- `TrendAnalysisGraphWorkflow.setup`: builds a fresh initial state from the
parameters and overwrites `self.state`, ignoring whatever was stored before. -/
def TrendAnalysisGraphWorkflow.setup (_w : TrendAnalysisGraphWorkflow)
    (fields : List String) (format language depth : String)
    (rag_enabled : Bool) (rag_docs : Option (List String)) (callback : Option Cb) :
    TrendAnalysisGraphWorkflow :=
  { state := some (initialState fields format language depth rag_enabled rag_docs callback) }

/-- `run`'s seeding of a directly-passed callback into the stored state. -/
def seedCallback (cb : Option Cb) (s : TrendAnalysisState) : TrendAnalysisState :=
  match cb with
  | some c => { s with callback := some c }
  | none => s

/-- `TrendAnalysisGraphWorkflow.run`: raises if `setup` was never called,
otherwise invokes the graph on a copy of the stored state; returns
`result["output_path"]` if truthy, else raises
`ValueError("보고서 생성에 실패했습니다.")`; exceptions escaping the graph are
re-raised. -/
def TrendAnalysisGraphWorkflow.run (env : Env) (w : TrendAnalysisGraphWorkflow)
    (callback : Option Cb) : Except String String :=
  match w.state with
  | none => Except.error "워크플로우가 초기화되지 않았습니다. setup() 메서드를 먼저 호출하세요."
  | some st =>
    match graphInvoke env (seedCallback callback st) with
    | Except.error e => Except.error e
    | Except.ok result =>
      if truthyOpt result.output_path then Except.ok (result.output_path.getD "")
      else Except.error "보고서 생성에 실패했습니다."

/-! ### Web search tool (`app/tools/search.py`) -/

/-- One entry of the list returned by `WebSearchTool.search`. -/
structure SearchItem where
  title : String
  url : String
  description : String
deriving DecidableEq

/-- `self.use_dummy_data = not self.api_key`: `os.getenv` may yield `None`
(unset) or a string; `not` applies Python truthiness, so `None` and `""`
both select dummy data. -/
def useDummy (apiKey : Option String) : Bool :=
  match apiKey with
  | none => true
  | some k => k = ""

/-- The five hard-coded dummy results of `WebSearchTool._get_dummy_results`. -/
def dummyResults (query : String) : List SearchItem :=
  [ { title := "미래 기술 트렌드: " ++ query ++ "에 관한 연구"
      url := "https://example.com/research/1"
      description := query ++ "에 관한 최신 연구 동향을 분석한 결과, 향후 5년간 급격한 발전이 예상됩니다." }
  , { title := query ++ " 기술의 산업적 영향 분석"
      url := "https://example.com/impact/2"
      description := query ++ " 기술이 다양한 산업에 미치는 영향을 분석하고, 미래 비즈니스 기회를 탐색합니다." }
  , { title := "최신 " ++ query ++ " 특허 동향 보고서"
      url := "https://example.com/patents/3"
      description := "지난 2년간 " ++ query ++ " 관련 특허 출원 동향을 분석하여 주요 혁신 트렌드를 파악합니다." }
  , { title := query ++ " 스타트업 투자 동향"
      url := "https://example.com/investment/4"
      description := query ++ " 분야 스타트업에 대한 벤처 캐피털 투자 동향과 주요 플레이어를 분석합니다." }
  , { title := "기업의 " ++ query ++ " R&D 전략"
      url := "https://example.com/strategy/5"
      description := "주요 기업들의 " ++ query ++ " 분야 R&D 투자 전략과 주력 개발 방향을 조사했습니다." } ]

/-- Python list slicing `l[:n]` for an `int` bound `n`: a negative bound
counts from the end (clamped at 0). -/
def pySliceTo (l : List SearchItem) (n : Int) : List SearchItem :=
  if n < 0 then l.take ((l.length : Int) + n).toNat else l.take n.toNat

/-- `WebSearchTool._get_dummy_results`:
`dummy_results[:min(count, len(dummy_results))]`. -/
def getDummyResults (query : String) (count : Int) : List SearchItem :=
  pySliceTo (dummyResults query) (min count ((dummyResults query).length : Int))

/-- The live Brave client's response, as the `search` code observes it:
`none` models a response object without a `web_results` attribute; each item
either processes into a `SearchItem` (the `getattr` extraction) or raises and
is skipped by the per-item `except ... continue`. -/
abbrev BraveResponse : Type := Option (List (Except String SearchItem))

/-- Oracle for `self.client.search(q=query, count=count)`. -/
structure SearchEnv where
  clientResult : String → Int → Except String BraveResponse

/-- The web-result extraction loop of `WebSearchTool.search`
(lines 44-54): failing items are skipped, the rest are appended in order. -/
def processWeb (resp : BraveResponse) : List SearchItem :=
  match resp with
  | none => []
  | some items => items.filterMap (fun it => it.toOption)

/-- `WebSearchTool.search`: dummy data when no credential; otherwise the
whole live call and result processing sit in a `try` whose `except` falls
back to dummy data; an empty processed result list also falls back. -/
def WebSearchTool.search (senv : SearchEnv) (apiKey : Option String)
    (query : String) (count : Int) : Except String (List SearchItem) :=
  if useDummy apiKey then Except.ok (getDummyResults query count)
  else
    match senv.clientResult query count with
    | Except.error _ => Except.ok (getDummyResults query count)
    | Except.ok resp =>
      let results := processWeb resp
      if results = [] then Except.ok (getDummyResults query count)
      else Except.ok results

/-! ### Helper notions and concrete instances used by the theorems -/

/-- A callback (or its absence) that never raises. -/
def CbSilent (cb : Option Cb) : Prop :=
  ∀ m, invokeCallback cb m = Except.ok ()

theorem cbSilent_none : CbSilent none := fun _ => rfl

theorem invokeCallback_none (m : String) : invokeCallback none m = Except.ok () := rfl

theorem append_ne_empty (a b : String) (ha : a.length ≠ 0) : a ++ b ≠ "" := by
  intro h
  have hlen := congrArg String.length h
  rw [String.length_append] at hlen
  have hz : ("" : String).length = 0 := rfl
  omega

theorem truthyOpt_append (a e : String) (ha : a.length ≠ 0) :
    truthyOpt (some (a ++ e)) = true := by
  simp only [truthyOpt, decide_eq_true_eq]
  exact append_ne_empty a e ha

theorem router_continue_of_ne_error (s : TrendAnalysisState)
    (h : ¬ should_handle_error s = "error") : truthyOpt s.error = false := by
  cases h' : truthyOpt s.error with
  | false => rfl
  | true => exact absurd (by simp [should_handle_error, h']) h

/-- Stub renderers for the conversion environment in concrete instances. -/
def cenvStub : ConvEnv :=
  { toPdf := fun _ _ => Except.error "pdf stub"
    toDocx := fun _ _ => Except.error "docx stub" }

/-- Environment in which every collaborator succeeds with a fixed string. -/
def envOk : Env :=
  { coordinatorPlan := fun _ _ _ _ _ _ => Except.ok "PLAN"
    researcherRun := fun _ _ _ _ => Except.ok "RESEARCH"
    reporterRun := fun _ _ _ _ => Except.ok "REPORT"
    conv := cenvStub
    timestamp := "20250101_000000" }

/-- Environment in which the planning collaborator raises `boom`. -/
def envPlanBoom : Env :=
  { envOk with coordinatorPlan := fun _ _ _ _ _ _ => Except.error "boom" }

/-- A fully concrete base state (as produced by `setup`). -/
def baseState : TrendAnalysisState :=
  initialState ["ai"] "md" "ko" "standard" false none none

/-! ### Claim C4 -/

/-- Claim C4: the router `should_handle_error` is a pure function of
`state.error` alone: it returns `"error"` iff `state.error` is
non-empty/non-null, returns `"continue"` otherwise, and its result is
unchanged by any modification of the other state fields. -/
theorem C4_router_pure (s t : TrendAnalysisState) :
    (should_handle_error s = "error" ↔ truthyOpt s.error = true) ∧
    (should_handle_error s = "continue" ↔ truthyOpt s.error = false) ∧
    (s.error = t.error → should_handle_error s = should_handle_error t) := by
  refine ⟨?_, ?_, fun h => by simp [should_handle_error, h]⟩
  · cases hb : truthyOpt s.error <;> simp [should_handle_error, hb]
  · cases hb : truthyOpt s.error <;> simp [should_handle_error, hb]

/-- Witness for C4 at concrete states: an error-carrying state routes to
`"error"` (independently of all other fields), an error-free one to
`"continue"`. -/
theorem C4_router_pure_witness :
    should_handle_error { baseState with error := some "x" } = "error" ∧
    should_handle_error baseState = "continue" ∧
    should_handle_error { baseState with error := some "x" } =
      should_handle_error
        { baseState with fields := ["robotics"], format := "pdf", status := "zzz",
                         report := some "r", error := some "x" } := by
  refine ⟨?_, ?_, ?_⟩
  · exact (C4_router_pure { baseState with error := some "x" } baseState).1.mpr rfl
  · exact (C4_router_pure baseState baseState).2.1.mpr rfl
  · exact (C4_router_pure { baseState with error := some "x" }
      { baseState with fields := ["robotics"], format := "pdf", status := "zzz",
                       report := some "r", error := some "x" }).2.2 rfl

/-! ### Claim C8 -/

/-- Claim C8: `setup` is idempotent in the replacing sense: a second `setup`
before `run` replaces the stored state entirely, so the workflow object is the
same as if only the second `setup` had happened, and the subsequent `run`
observes only the second parameter set. -/
theorem C8_setup_replaces (w : TrendAnalysisGraphWorkflow) (env : Env) (cb : Option Cb)
    (f₁ : List String) (fo₁ l₁ d₁ : String) (r₁ : Bool) (rd₁ : Option (List String))
    (c₁ : Option Cb)
    (f₂ : List String) (fo₂ l₂ d₂ : String) (r₂ : Bool) (rd₂ : Option (List String))
    (c₂ : Option Cb) :
    (w.setup f₁ fo₁ l₁ d₁ r₁ rd₁ c₁).setup f₂ fo₂ l₂ d₂ r₂ rd₂ c₂ =
      w.setup f₂ fo₂ l₂ d₂ r₂ rd₂ c₂ ∧
    ((w.setup f₁ fo₁ l₁ d₁ r₁ rd₁ c₁).setup f₂ fo₂ l₂ d₂ r₂ rd₂ c₂).run env cb =
      (w.setup f₂ fo₂ l₂ d₂ r₂ rd₂ c₂).run env cb :=
  ⟨rfl, rfl⟩

/-! ### Claim C6 -/

/-- Counterexample to C6 as stated: the converter's markdown branch is keyed
on the literal `"md"`, so `convert(markdownText, "markdown", "x")` does not
produce a file at all — it raises the unsupported-format `ValueError`. -/
theorem C6_counterexample :
    ReportConverter.convert cenvStub "# hello" "markdown" "x" =
      Except.error "지원되지 않는 형식: markdown" := by
  rfl

/-- Claim C6 (amended): the round-trip holds for the format value the code
actually accepts for markdown, namely `"md"`: for every markdown text,
`convert(markdownText, "md", "x")` writes the text verbatim to
`output/x.md`, and reading the produced file back returns exactly the text. -/
theorem C6_md_roundtrip (cenv : ConvEnv) (m : String) :
    ReportConverter.convert cenv m "md" "x" = Except.ok (saveMarkdown m "x") ∧
    readBack (saveMarkdown m "x") = m ∧ (saveMarkdown m "x").path = "output/x.md" :=
  ⟨rfl, rfl, rfl⟩

/-! ### Claim C7 -/

/-- Counterexample to C7 as stated: `"md"` lies outside the claim's set
`{markdown, pdf, docx}`, yet the converter does not raise on it — it is the
accepted markdown format value. -/
theorem C7_counterexample :
    ¬("md" = "markdown" ∨ "md" = "pdf" ∨ "md" = "docx") ∧
    ReportConverter.convert cenvStub "t" "md" "x" =
      Except.ok { path := "output/x.md", content := "t" } :=
  ⟨by decide, rfl⟩

/-- Claim C7 (amended): for every format value outside the code's supported
set `{md, pdf, docx}` (e.g. `"xml"`), the conversion collaborator raises
`ValueError` with a message naming the format; the Convert stage records it,
so `state.error` contains the format name and `status` is `"error"`; and a
full run configured with such a format raises. -/
theorem C7_unsupported_format (cenv : ConvEnv) (env : Env) (s : TrendAnalysisState)
    (fmt r : String)
    (hfmt : ¬(fmt = "md" ∨ fmt = "pdf" ∨ fmt = "docx"))
    (hr : s.report = some r) (hf : s.format = fmt) (hcb : CbSilent s.callback) :
    (∀ m fn, ReportConverter.convert cenv m fmt fn =
      Except.error ("지원되지 않는 형식: " ++ fmt)) ∧
    convert_report env s =
      Except.ok { s with
        error := some ("보고서 변환 중 오류 발생: " ++ ("지원되지 않는 형식: " ++ fmt)),
        status := "error" } ∧
    (∀ (fields : List String) (language depth : String) (rag_enabled : Bool)
       (rd : Option (List String)) (p rr rep : String),
      env.coordinatorPlan fields fmt language depth rag_enabled (rd.getD []) =
        Except.ok p →
      env.researcherRun fields depth rag_enabled (rd.getD []) = Except.ok rr →
      env.reporterRun fields language depth (some rr) = Except.ok rep →
      ((TrendAnalysisGraphWorkflow.mk none).setup fields fmt language depth rag_enabled
          rd none).run env none =
        Except.error "보고서 생성에 실패했습니다.") := by
  push_neg at hfmt
  obtain ⟨h1, h2, h3⟩ := hfmt
  refine ⟨?_, ?_, ?_⟩
  · intro m fn
    simp [ReportConverter.convert, h1, h2, h3]
  · simp [convert_report, hcb _, hr, hf, ReportConverter.convert, h1, h2, h3]
  · intro fields language depth rag_enabled rd p rr rep hp hrr hrep
    have hne : ("보고서 변환 중 오류 발생: " ++ ("지원되지 않는 형식: " ++ fmt)) ≠ "" :=
      append_ne_empty _ _ (by decide)
    simp [hne, TrendAnalysisGraphWorkflow.run, TrendAnalysisGraphWorkflow.setup, seedCallback,
      graphInvoke, create_analysis_plan, perform_research, generate_report, convert_report,
      handle_error, initialState, invokeCallback, hp, hrr, hrep,
      should_handle_error, truthyOpt, ReportConverter.convert, h1, h2, h3, pyStrOpt]

/-- A state that has reached the Convert stage with format `"xml"`. -/
def sXml : TrendAnalysisState :=
  { baseState with format := "xml", report := some "REP" }

/-- Witness for C7 (amended) at format `"xml"`: the converter raises naming
the format, the stage records it with the error marker, and the configured
run raises. -/
theorem C7_unsupported_format_witness :
    ReportConverter.convert cenvStub "t" "xml" "f" =
      Except.error ("지원되지 않는 형식: " ++ "xml") ∧
    convert_report envOk sXml =
      Except.ok { sXml with
        error := some ("보고서 변환 중 오류 발생: " ++ ("지원되지 않는 형식: " ++ "xml")),
        status := "error" } ∧
    ((TrendAnalysisGraphWorkflow.mk none).setup ["ai"] "xml" "ko" "standard" false
        none none).run envOk none =
      Except.error "보고서 생성에 실패했습니다." := by
  have h := C7_unsupported_format cenvStub envOk sXml "xml" "REP" (by decide) rfl rfl
    cbSilent_none
  exact ⟨h.1 "t" "f", h.2.1,
    h.2.2 ["ai"] "ko" "standard" false none "PLAN" "RESEARCH" "REPORT" rfl rfl rfl⟩

/-! ### Claims C9 and C10 -/

theorem dummyResults_length (q : String) : (dummyResults q).length = 5 := rfl

theorem getDummyResults_length (q : String) (count : Int) (hc : 0 ≤ count) :
    (getDummyResults q count).length = (min count 5).toNat := by
  have h5 : (dummyResults q).length = 5 := rfl
  unfold getDummyResults pySliceTo
  rw [h5]
  rw [if_neg (by omega : ¬ min count ((5 : Nat) : Int) < 0)]
  rw [List.length_take, h5]
  omega

/-- A search environment whose live client always fails. -/
def senvDown : SearchEnv := { clientResult := fun _ _ => Except.error "network down" }

/-- Counterexample to C9 as stated: at the requested count `-1` (a legal
Python `int`), the credential-less search returns 4 placeholder entries —
Python's negative slice bound counts from the end — so the result does not
have length `min(count, 5) = -1`. -/
theorem C9_counterexample :
    WebSearchTool.search senvDown none "q" (-1) =
      Except.ok (getDummyResults "q" (-1)) ∧
    (getDummyResults "q" (-1)).length = 4 ∧
    min (-1 : Int) 5 = -1 ∧ ((4 : Int) ≠ -1) :=
  ⟨rfl, rfl, by decide, by decide⟩

/-- Claim C9 (amended to non-negative requested counts, as the negative-count
counterexample forces): for every query and every count ≥ 0, when no search
credential is configured (`BRAVE_API_KEY` unset or empty) `search` never
raises and returns exactly the deterministic placeholder result set, whose
length is `min(count, 5)`. -/
theorem C9_no_credential (senv : SearchEnv) (apiKey : Option String) (q : String)
    (count : Int) (hkey : useDummy apiKey = true) (hc : 0 ≤ count) :
    WebSearchTool.search senv apiKey q count = Except.ok (getDummyResults q count) ∧
    (getDummyResults q count).length = (min count 5).toNat := by
  constructor
  · simp [WebSearchTool.search, hkey]
  · exact getDummyResults_length q count hc

/-- Witness for C9 (amended) at `count = 3` with no credential configured. -/
theorem C9_no_credential_witness :
    WebSearchTool.search senvDown none "ai" 3 = Except.ok (getDummyResults "ai" 3) ∧
    (getDummyResults "ai" 3).length = (min (3 : Int) 5).toNat :=
  C9_no_credential senvDown none "ai" 3 rfl (by decide)

/-- Claim C10: `WebSearchTool.search` never raises; and for every count ≥ 1
it never returns an empty list even with a credential configured: any
exception from the live client, and a live response without usable web
results, both fall back to the placeholder set of length `min(count, 5)`. -/
theorem C10_search_never_empty (senv : SearchEnv) (apiKey : Option String)
    (q : String) (count : Int) :
    (∃ l, WebSearchTool.search senv apiKey q count = Except.ok l) ∧
    (1 ≤ count →
      (∀ l, WebSearchTool.search senv apiKey q count = Except.ok l → l ≠ []) ∧
      (∀ e, senv.clientResult q count = Except.error e →
        WebSearchTool.search senv apiKey q count = Except.ok (getDummyResults q count)) ∧
      (∀ resp, senv.clientResult q count = Except.ok resp → processWeb resp = [] →
        WebSearchTool.search senv apiKey q count = Except.ok (getDummyResults q count)) ∧
      (getDummyResults q count).length = (min count 5).toNat) := by
  have hd : 1 ≤ count → getDummyResults q count ≠ [] := by
    intro h1
    have hlen := getDummyResults_length q count (by omega)
    intro hnil
    rw [hnil] at hlen
    simp at hlen
    omega
  constructor
  · unfold WebSearchTool.search
    cases hdum : useDummy apiKey with
    | true => exact ⟨getDummyResults q count, by simp⟩
    | false =>
      simp only [Bool.false_eq_true, if_false]
      cases hcl : senv.clientResult q count with
      | error e => exact ⟨getDummyResults q count, rfl⟩
      | ok resp =>
        by_cases hw : processWeb resp = []
        · exact ⟨getDummyResults q count, by simp [hw]⟩
        · exact ⟨processWeb resp, by simp [hw]⟩
  · intro h1
    refine ⟨?_, ?_, ?_, getDummyResults_length q count (by omega)⟩
    · intro l hl
      unfold WebSearchTool.search at hl
      cases hdum : useDummy apiKey <;> rw [hdum] at hl
      · simp only [Bool.false_eq_true, if_false] at hl
        cases hcl : senv.clientResult q count <;> rw [hcl] at hl
        · simp only [Except.ok.injEq] at hl
          subst hl
          exact hd h1
        · rename_i resp
          have hl' : (if processWeb resp = [] then Except.ok (getDummyResults q count)
              else Except.ok (processWeb resp)) = Except.ok l := hl
          by_cases hw : processWeb resp = []
          · rw [if_pos hw] at hl'
            simp only [Except.ok.injEq] at hl'
            subst hl'
            exact hd h1
          · rw [if_neg hw] at hl'
            simp only [Except.ok.injEq] at hl'
            subst hl'
            exact hw
      · simp only [if_true] at hl
        simp only [Except.ok.injEq] at hl
        subst hl
        exact hd h1
    · intro e hcl
      unfold WebSearchTool.search
      cases hdum : useDummy apiKey <;> simp [hdum, hcl]
    · intro resp hcl hw
      unfold WebSearchTool.search
      cases hdum : useDummy apiKey <;> simp [hdum, hcl, hw]

/-- Witness for C10 with a configured credential, a failing live client, and
`count = 2`. -/
theorem C10_search_never_empty_witness :
    (∃ l, WebSearchTool.search senvDown (some "key") "ai" 2 = Except.ok l) ∧
    (WebSearchTool.search senvDown (some "key") "ai" 2 =
      Except.ok (getDummyResults "ai" 2)) ∧
    getDummyResults "ai" 2 ≠ [] ∧
    (getDummyResults "ai" 2).length = (min (2 : Int) 5).toNat := by
  have h := C10_search_never_empty senvDown (some "key") "ai" 2
  have h2 := h.2 (by decide)
  have hfall := h2.2.1 "network down" rfl
  exact ⟨h.1, hfall, h2.1 _ hfall, h2.2.2.2⟩

/-! ### Claim C3 -/

/-- Claim C3: every stage function (plan, research, report, convert) catches
any exception raised by its external collaborator, writes a descriptive
message (naming the stage and carrying `str(e)`) into `state.error`, sets
`state.status` to the generic `"error"` marker, and returns the state — the
collaborator's exception never propagates past the stage boundary. -/
theorem C3_stage_catches (env : Env) (s : TrendAnalysisState) (e : String) :
    (invokeCallback s.callback "분석 계획 생성 중..." = Except.ok () →
      env.coordinatorPlan s.fields s.format s.language s.depth s.rag_enabled s.rag_docs =
        Except.error e →
      create_analysis_plan env s =
        Except.ok { s with error := some ("분석 계획 생성 중 오류 발생: " ++ e),
                           status := "error" }) ∧
    (invokeCallback s.callback "리서치 수행 중..." = Except.ok () →
      env.researcherRun s.fields s.depth s.rag_enabled s.rag_docs = Except.error e →
      perform_research env s =
        Except.ok { s with error := some ("리서치 수행 중 오류 발생: " ++ e),
                           status := "error" }) ∧
    (invokeCallback s.callback "보고서 생성 중..." = Except.ok () →
      env.reporterRun s.fields s.language s.depth s.research_results = Except.error e →
      generate_report env s =
        Except.ok { s with error := some ("보고서 생성 중 오류 발생: " ++ e),
                           status := "error" }) ∧
    (∀ r, s.report = some r →
      invokeCallback s.callback ("보고서 " ++ s.format ++ " 형식으로 변환 중...") =
        Except.ok () →
      ReportConverter.convert env.conv r s.format ("tech_trend_report_" ++ env.timestamp) =
        Except.error e →
      convert_report env s =
        Except.ok { s with error := some ("보고서 변환 중 오류 발생: " ++ e),
                           status := "error" }) := by
  refine ⟨fun h1 h2 => ?_, fun h1 h2 => ?_, fun h1 h2 => ?_, fun r hr h1 h2 => ?_⟩
  · simp [create_analysis_plan, h1, h2]
  · simp [perform_research, h1, h2]
  · simp [generate_report, h1, h2]
  · simp [convert_report, h1, hr, h2]

/-- An environment in which all four collaborators raise. -/
def envAllBoom : Env :=
  { coordinatorPlan := fun _ _ _ _ _ _ => Except.error "plan boom"
    researcherRun := fun _ _ _ _ => Except.error "research boom"
    reporterRun := fun _ _ _ _ => Except.error "report boom"
    conv := { toPdf := fun _ _ => Except.error "pdf boom"
              toDocx := fun _ _ => Except.error "docx boom" }
    timestamp := "TS" }

/-- A state that has reached the Convert stage with a pdf format request. -/
def sPdf : TrendAnalysisState :=
  { baseState with format := "pdf", report := some "REP" }

/-- Witness for C3: with every collaborator raising, each stage returns the
state with the descriptive message and the `"error"` marker. -/
theorem C3_stage_catches_witness :
    create_analysis_plan envAllBoom baseState =
      Except.ok { baseState with error := some ("분석 계획 생성 중 오류 발생: " ++ "plan boom"),
                                 status := "error" } ∧
    perform_research envAllBoom baseState =
      Except.ok { baseState with error := some ("리서치 수행 중 오류 발생: " ++ "research boom"),
                                 status := "error" } ∧
    generate_report envAllBoom baseState =
      Except.ok { baseState with error := some ("보고서 생성 중 오류 발생: " ++ "report boom"),
                                 status := "error" } ∧
    convert_report envAllBoom sPdf =
      Except.ok { sPdf with error := some ("보고서 변환 중 오류 발생: " ++ "pdf boom"),
                            status := "error" } := by
  have h1 := C3_stage_catches envAllBoom baseState "plan boom"
  have h2 := C3_stage_catches envAllBoom baseState "research boom"
  have h3 := C3_stage_catches envAllBoom baseState "report boom"
  have h4 := C3_stage_catches envAllBoom sPdf "pdf boom"
  exact ⟨h1.1 rfl rfl, h2.2.1 rfl rfl, h3.2.2.1 rfl rfl, h4.2.2.2 "REP" rfl rfl rfl⟩

/-! ### Claim C5 -/

/-- A callback that raises on every message. -/
def cbBoom : Cb := fun _ => some "callback exploded"

/-- A setup-produced state carrying the always-raising callback. -/
def sCbBoom : TrendAnalysisState := { baseState with callback := some cbBoom }

/-- Counterexample to C5 as stated: the progress-callback invocation sits
OUTSIDE the stage's `try` block, so a raising callback makes the Plan stage
itself raise — the exception escapes the stage boundary instead of the stage
completing with its collaborator-determined outcome. -/
theorem C5_counterexample :
    create_analysis_plan envOk sCbBoom = Except.error "callback exploded" := by
  rfl

/-- Re-attach a callback to a stage result. -/
def withCb (c : Option Cb) (t : TrendAnalysisState) : TrendAnalysisState :=
  { t with callback := c }

/-- Claim C5 (amended): emitting the progress message is NOT guarded: if the
supplied callback raises on a stage's entry message, the exception escapes
the stage (this holds for all four stages and the error handler); only when
the callback never raises does each stage complete with exactly the same
success/error outcome it would have with no callback at all (same resulting
state, up to the stored callback itself). -/
theorem C5_callback_unguarded (env : Env) (s : TrendAnalysisState) (m : String) :
    (invokeCallback s.callback "분석 계획 생성 중..." = Except.error m →
      create_analysis_plan env s = Except.error m) ∧
    (invokeCallback s.callback "리서치 수행 중..." = Except.error m →
      perform_research env s = Except.error m) ∧
    (invokeCallback s.callback "보고서 생성 중..." = Except.error m →
      generate_report env s = Except.error m) ∧
    (invokeCallback s.callback ("보고서 " ++ s.format ++ " 형식으로 변환 중...") =
        Except.error m →
      convert_report env s = Except.error m) ∧
    (invokeCallback s.callback ("오류 발생: " ++ pyStrOpt s.error) = Except.error m →
      handle_error s = Except.error m) ∧
    (CbSilent s.callback →
      create_analysis_plan env s =
        (create_analysis_plan env { s with callback := none }).map (withCb s.callback) ∧
      perform_research env s =
        (perform_research env { s with callback := none }).map (withCb s.callback) ∧
      generate_report env s =
        (generate_report env { s with callback := none }).map (withCb s.callback) ∧
      convert_report env s =
        (convert_report env { s with callback := none }).map (withCb s.callback)) := by
  refine ⟨fun h => by simp [create_analysis_plan, h],
          fun h => by simp [perform_research, h],
          fun h => by simp [generate_report, h],
          fun h => by simp [convert_report, h],
          fun h => by simp [handle_error, h],
          fun hsil => ?_⟩
  have hs : ∀ m, invokeCallback s.callback m = Except.ok () := hsil
  refine ⟨?_, ?_, ?_, ?_⟩
  · cases hco : env.coordinatorPlan s.fields s.format s.language s.depth s.rag_enabled
      s.rag_docs <;>
      simp [create_analysis_plan, hs, invokeCallback_none, hco, withCb, Except.map]
  · cases hco : env.researcherRun s.fields s.depth s.rag_enabled s.rag_docs <;>
      simp [perform_research, hs, invokeCallback_none, hco, withCb, Except.map]
  · cases hco : env.reporterRun s.fields s.language s.depth s.research_results <;>
      simp [generate_report, hs, invokeCallback_none, hco, withCb, Except.map]
  · cases hr : s.report with
    | none => simp [convert_report, hs, invokeCallback_none, hr, withCb, Except.map]
    | some r =>
      cases hco : ReportConverter.convert env.conv r s.format
          ("tech_trend_report_" ++ env.timestamp) <;>
        simp [convert_report, hs, invokeCallback_none, hr, hco, withCb, Except.map]

/-- Witness for C5 (amended): the raising callback escapes the Plan stage at
a concrete input, and with no callback configured the Plan stage outcome
matches the callback-free outcome. -/
theorem C5_callback_unguarded_witness :
    create_analysis_plan envPlanBoom sCbBoom = Except.error "callback exploded" ∧
    create_analysis_plan envOk baseState =
      (create_analysis_plan envOk { baseState with callback := none }).map
        (withCb baseState.callback) := by
  refine ⟨(C5_callback_unguarded envPlanBoom sCbBoom "callback exploded").1 rfl, ?_⟩
  exact ((C5_callback_unguarded envOk baseState "unused").2.2.2.2.2
    (fun _ => rfl)).1

/-! ### Claim C1 -/

/-- The final state of a run whose Plan stage recorded failure `e`. -/
def planFailState (s : TrendAnalysisState) (e : String) : TrendAnalysisState :=
  { s with error := some ("분석 계획 생성 중 오류 발생: " ++ e), status := "error" }

/-- Counterexample to C1 as stated: when the Plan collaborator raises `boom`,
the workflow reaches the failure terminal with
`state.error = "분석 계획 생성 중 오류 발생: boom"`, but `run` raises the fixed
message `"보고서 생성에 실패했습니다."` — not the message stored in
`state.error`. -/
theorem C1_counterexample :
    ((TrendAnalysisGraphWorkflow.mk none).setup ["ai"] "md" "ko" "standard" false
        none none).run envPlanBoom none =
      Except.error "보고서 생성에 실패했습니다." ∧
    graphInvoke envPlanBoom baseState = Except.ok (planFailState baseState "boom") ∧
    (planFailState baseState "boom").error = some "분석 계획 생성 중 오류 발생: boom" ∧
    "보고서 생성에 실패했습니다." ≠ "분석 계획 생성 중 오류 발생: boom" :=
  ⟨rfl, rfl, rfl, by decide⟩

/-- Claim C1 (amended): when a stage records a failure and the workflow
reaches the failure terminal state with `output_path` still unset, `run`
raises — but with the fixed message `"보고서 생성에 실패했습니다."`, which does
not carry `state.error`'s message. -/
theorem C1_run_fixed_failure (env : Env) (w : TrendAnalysisGraphWorkflow)
    (st f : TrendAnalysisState) (cb : Option Cb)
    (hw : w.state = some st)
    (hf : graphInvoke env (seedCallback cb st) = Except.ok f)
    (_herr : truthyOpt f.error = true)
    (hout : truthyOpt f.output_path = false) :
    w.run env cb = Except.error "보고서 생성에 실패했습니다." := by
  simp [TrendAnalysisGraphWorkflow.run, hw, hf, hout]

/-- Witness for C1 (amended) at the concrete failing-plan run. -/
theorem C1_run_fixed_failure_witness :
    ((TrendAnalysisGraphWorkflow.mk none).setup ["ai"] "md" "ko" "standard" false
        none none).run envPlanBoom none =
      Except.error "보고서 생성에 실패했습니다." :=
  C1_run_fixed_failure envPlanBoom _ baseState (planFailState baseState "boom") none
    rfl rfl rfl rfl

/-! ### Claim C2 -/

theorem create_analysis_plan_ok (env : Env) (s t : TrendAnalysisState)
    (h : create_analysis_plan env s = Except.ok t) :
    t.research_results = s.research_results ∧ t.report = s.report ∧
    t.output_path = s.output_path ∧
    (truthyOpt t.error = false → t.analysis_plan.isSome = true) := by
  unfold create_analysis_plan at h
  split at h
  · exact absurd h (by simp)
  · split at h <;> simp only [Except.ok.injEq] at h <;> subst h
    · exact ⟨rfl, rfl, rfl, fun _ => rfl⟩
    · refine ⟨rfl, rfl, rfl, fun hfalse => ?_⟩
      rw [truthyOpt_append _ _ (by decide)] at hfalse
      exact Bool.noConfusion hfalse

theorem perform_research_ok (env : Env) (s t : TrendAnalysisState)
    (h : perform_research env s = Except.ok t) :
    t.analysis_plan = s.analysis_plan ∧ t.report = s.report ∧
    t.output_path = s.output_path ∧
    (truthyOpt t.error = false → t.research_results.isSome = true) := by
  unfold perform_research at h
  split at h
  · exact absurd h (by simp)
  · split at h <;> simp only [Except.ok.injEq] at h <;> subst h
    · exact ⟨rfl, rfl, rfl, fun _ => rfl⟩
    · refine ⟨rfl, rfl, rfl, fun hfalse => ?_⟩
      rw [truthyOpt_append _ _ (by decide)] at hfalse
      exact Bool.noConfusion hfalse

theorem generate_report_ok (env : Env) (s t : TrendAnalysisState)
    (h : generate_report env s = Except.ok t) :
    t.analysis_plan = s.analysis_plan ∧ t.research_results = s.research_results ∧
    t.output_path = s.output_path ∧
    (truthyOpt t.error = false → t.report.isSome = true) := by
  unfold generate_report at h
  split at h
  · exact absurd h (by simp)
  · split at h <;> simp only [Except.ok.injEq] at h <;> subst h
    · exact ⟨rfl, rfl, rfl, fun _ => rfl⟩
    · refine ⟨rfl, rfl, rfl, fun hfalse => ?_⟩
      rw [truthyOpt_append _ _ (by decide)] at hfalse
      exact Bool.noConfusion hfalse

theorem convert_report_ok (env : Env) (s t : TrendAnalysisState)
    (h : convert_report env s = Except.ok t) :
    t.analysis_plan = s.analysis_plan ∧ t.research_results = s.research_results ∧
    t.report = s.report := by
  unfold convert_report at h
  split at h
  · exact absurd h (by simp)
  · split at h
    · simp only [Except.ok.injEq] at h
      subst h
      exact ⟨rfl, rfl, rfl⟩
    · split at h <;> simp only [Except.ok.injEq] at h <;> subst h <;>
        exact ⟨rfl, rfl, rfl⟩

theorem handle_error_ok (s t : TrendAnalysisState)
    (h : handle_error s = Except.ok t) : t = s := by
  unfold handle_error at h
  split at h
  · exact absurd h (by simp)
  · simp only [Except.ok.injEq] at h
    exact h.symm

theorem end_workflow_ok (s t : TrendAnalysisState)
    (h : end_workflow s = Except.ok t) : t = s := by
  unfold end_workflow at h
  split at h
  · exact absurd h (by simp)
  · simp only [Except.ok.injEq] at h
    exact h.symm

/-- Claim C2: artifact fields are only ever set in stage order — in every
final state, `research_results` is set only if `analysis_plan` is,
`report` only if `research_results` is, `output_path` only if `report` is;
and if the Plan collaborator raises, `run` fails with `research_results`,
`report` and `output_path` all unset in the final state. -/
theorem C2_artifact_order (env : Env) (fields : List String)
    (format language depth : String) (rag_enabled : Bool)
    (rag_docs : Option (List String)) (cb : Option Cb) :
    (∀ f, graphInvoke env
        (initialState fields format language depth rag_enabled rag_docs cb) =
        Except.ok f →
      (f.research_results ≠ none → f.analysis_plan ≠ none) ∧
      (f.report ≠ none → f.research_results ≠ none) ∧
      (f.output_path ≠ none → f.report ≠ none)) ∧
    (∀ e, env.coordinatorPlan fields format language depth rag_enabled
        (rag_docs.getD []) = Except.error e → CbSilent cb →
      graphInvoke env
          (initialState fields format language depth rag_enabled rag_docs cb) =
        Except.ok
          (planFailState (initialState fields format language depth rag_enabled
            rag_docs cb) e) ∧
      (planFailState (initialState fields format language depth rag_enabled
        rag_docs cb) e).research_results = none ∧
      (planFailState (initialState fields format language depth rag_enabled
        rag_docs cb) e).report = none ∧
      (planFailState (initialState fields format language depth rag_enabled
        rag_docs cb) e).output_path = none ∧
      ((TrendAnalysisGraphWorkflow.mk none).setup fields format language depth
          rag_enabled rag_docs cb).run env none =
        Except.error "보고서 생성에 실패했습니다.") := by
  constructor
  · intro f hf
    unfold graphInvoke at hf
    split at hf
    · exact absurd hf (by simp)
    rename_i s1 heq1
    obtain ⟨hp1, hp2, hp3, hp4⟩ := create_analysis_plan_ok env _ s1 heq1
    split at hf
    · have hfe := handle_error_ok _ _ hf
      rw [hfe]
      have hrn : s1.research_results = none := by rw [hp1]; rfl
      have hpn : s1.report = none := by rw [hp2]; rfl
      have hon : s1.output_path = none := by rw [hp3]; rfl
      exact ⟨fun hr => absurd hrn hr, fun hr => absurd hpn hr, fun hr => absurd hon hr⟩
    rename_i hcont1
    have han : s1.analysis_plan ≠ none :=
      Option.ne_none_iff_isSome.mpr (hp4 (router_continue_of_ne_error _ hcont1))
    split at hf
    · exact absurd hf (by simp)
    rename_i s2 heq2
    obtain ⟨hq1, hq2, hq3, hq4⟩ := perform_research_ok env _ _ heq2
    split at hf
    · have hfe := handle_error_ok _ _ hf
      rw [hfe]
      have hpn : s2.report = none := by rw [hq2, hp2]; rfl
      have hon : s2.output_path = none := by rw [hq3, hp3]; rfl
      exact ⟨fun _ => by rw [hq1]; exact han,
             fun hr => absurd hpn hr, fun hr => absurd hon hr⟩
    rename_i hcont2
    have hrn : s2.research_results ≠ none :=
      Option.ne_none_iff_isSome.mpr (hq4 (router_continue_of_ne_error _ hcont2))
    split at hf
    · exact absurd hf (by simp)
    rename_i s3 heq3
    obtain ⟨hr1, hr2, hr3, hr4⟩ := generate_report_ok env _ _ heq3
    split at hf
    · have hfe := handle_error_ok _ _ hf
      rw [hfe]
      have hon : s3.output_path = none := by rw [hr3, hq3, hp3]; rfl
      exact ⟨fun _ => by rw [hr1, hq1]; exact han,
             fun _ => by rw [hr2]; exact hrn,
             fun hr => absurd hon hr⟩
    rename_i hcont3
    have hrep : s3.report ≠ none :=
      Option.ne_none_iff_isSome.mpr (hr4 (router_continue_of_ne_error _ hcont3))
    split at hf
    · exact absurd hf (by simp)
    rename_i s4 heq4
    obtain ⟨hc1, hc2, hc3⟩ := convert_report_ok env _ _ heq4
    split at hf
    · have hfe := handle_error_ok _ _ hf
      rw [hfe]
      exact ⟨fun _ => by rw [hc1, hr1, hq1]; exact han,
             fun _ => by rw [hc2, hr2]; exact hrn,
             fun _ => by rw [hc3]; exact hrep⟩
    · have hfe := end_workflow_ok _ _ hf
      rw [hfe]
      exact ⟨fun _ => by rw [hc1, hr1, hq1]; exact han,
             fun _ => by rw [hc2, hr2]; exact hrn,
             fun _ => by rw [hc3]; exact hrep⟩
  · intro e hco hsil
    have hs : ∀ m, invokeCallback cb m = Except.ok () := hsil
    have hne : ("분석 계획 생성 중 오류 발생: " ++ e) ≠ "" :=
      append_ne_empty _ _ (by decide)
    have hgi : graphInvoke env
        (initialState fields format language depth rag_enabled rag_docs cb) =
        Except.ok
          (planFailState (initialState fields format language depth rag_enabled
            rag_docs cb) e) := by
      simp [graphInvoke, create_analysis_plan, initialState, hs, hco,
        should_handle_error, truthyOpt, handle_error, pyStrOpt, planFailState, hne]
    have hrun : ((TrendAnalysisGraphWorkflow.mk none).setup fields format language depth
        rag_enabled rag_docs cb).run env none =
        Except.error "보고서 생성에 실패했습니다." := by
      unfold TrendAnalysisGraphWorkflow.run TrendAnalysisGraphWorkflow.setup
      simp only [seedCallback, hgi]
      simp [planFailState, initialState, truthyOpt]
    exact ⟨hgi, rfl, rfl, rfl, hrun⟩

/-- The final state of a fully successful run under `envOk`. -/
def fOkFinal : TrendAnalysisState :=
  { baseState with
    analysis_plan := some "PLAN"
    research_results := some "RESEARCH"
    report := some "REPORT"
    output_path := some "output/tech_trend_report_20250101_000000.md"
    status := "completed"
    error := none }

/-- Witness for C2 at concrete environments: the failing-plan run leaves
every downstream artifact unset and makes `run` raise, and in the successful
final state the stage-order chain gives a set `analysis_plan`. -/
theorem C2_artifact_order_witness :
    (planFailState baseState "boom").research_results = none ∧
    (planFailState baseState "boom").report = none ∧
    (planFailState baseState "boom").output_path = none ∧
    ((TrendAnalysisGraphWorkflow.mk none).setup ["ai"] "md" "ko" "standard" false
        none none).run envPlanBoom none = Except.error "보고서 생성에 실패했습니다." ∧
    fOkFinal.analysis_plan ≠ none := by
  have h2 := (C2_artifact_order envPlanBoom ["ai"] "md" "ko" "standard" false none none).2
    "boom" rfl cbSilent_none
  have h1 := (C2_artifact_order envOk ["ai"] "md" "ko" "standard" false none none).1
    fOkFinal (by rfl)
  exact ⟨h2.2.1, h2.2.2.1, h2.2.2.2.1, h2.2.2.2.2, h1.1 (by simp [fOkFinal])⟩

end FutureSight
